import Mathlib

/-!
Verification of the WAP3 agent-payment escrow core.

The authoritative state machine is the Solidity contract
`contracts/AgentEscrow.sol`; the audit reconciler is
`src/wap3/audit.ts` (`collectAuditData`) and the client is
`src/wap3/client.ts` (`WAP3Client`).  Each is embedded shallowly below:
addresses and 32-byte words become `Nat` (0 is the zero address /
`ZeroHash`), contract storage becomes an explicit `Storage` value
threaded through the four transitions, and a `revert` becomes
`Except.error` carrying the revert reason.  Native-token transfers by
`call` are modelled as always succeeding (balances are not tracked;
none of the properties below concerns transfer failure).
-/

namespace AgentEscrow

/-- Addresses, as natural numbers; `0` is the zero address. -/
abbrev Address := Nat

/-- 32-byte words (`bytes32`): task ids and proof hashes; `0` is `ZeroHash`. -/
abbrev B32 := Nat

/-- The `Escrow` struct of `AgentEscrow.sol` (lines 9-19). -/
structure Escrow where
  payer : Address
  agent : Address
  amount : Nat
  taskId : B32
  proofHash : B32
  funded : Bool
  completed : Bool
  released : Bool
  refunded : Bool
deriving Repr, DecidableEq

/-- The zero-initialised struct a Solidity mapping yields for an
unallocated key. -/
def Escrow.empty : Escrow :=
  { payer := 0, agent := 0, amount := 0, taskId := 0, proofHash := 0,
    funded := false, completed := false, released := false, refunded := false }

/-- Contract storage: `nextEscrowId` and the `escrows` mapping
(lines 21-22 of the contract). -/
structure Storage where
  nextEscrowId : Nat
  escrows : Nat → Escrow

/-- A freshly deployed contract: counter 0, all mapping slots zeroed. -/
def Storage.init : Storage :=
  { nextEscrowId := 0, escrows := fun _ => Escrow.empty }

/-- Write one mapping slot. -/
def Storage.set (s : Storage) (i : Nat) (e : Escrow) : Storage :=
  { s with escrows := fun j => if j = i then e else s.escrows j }

/-- Revert reasons of the contract, one per `require` message; the
names follow the spec's error taxonomy, the comments give the exact
revert strings. -/
inductive Err where
  | invalidAgent      -- "invalid agent"
  | noFunds           -- "no funds sent"
  | notFound          -- "escrow not found or not funded"
  | alreadyCompleted  -- "already completed"
  | notCompleted      -- "task not completed"
  | alreadyReleased   -- "already released"
  | alreadyRefunded   -- "already refunded"
  | onlyAgent         -- "only agent"
  | onlyPayer         -- "only payer"
deriving Repr, DecidableEq

/-- `createEscrow(agent, taskId)` with `msg.sender = sender` and
`msg.value = value` (contract lines 55-73).  On success returns the new
storage and the allocated escrow id.  Solidity assigns only the five
fields `payer, agent, amount, taskId, funded` of the storage slot, so
the embedding updates exactly those. -/
def createEscrow (sender : Address) (value : Nat) (agent : Address)
    (taskId : B32) (s : Storage) : Except Err (Storage × Nat) :=
  if agent = 0 then .error .invalidAgent
  else if value = 0 then .error .noFunds   -- msg.value > 0 fails iff value = 0
  else
    let escrowId := s.nextEscrowId
    let e := { s.escrows escrowId with
               payer := sender, agent := agent, amount := value,
               taskId := taskId, funded := true }
    .ok (⟨escrowId + 1, fun j => if j = escrowId then e else s.escrows j⟩, escrowId)

/-- `submitProof(escrowId, proofHash)` with `msg.sender = sender`
(contract lines 79-90). -/
def submitProof (sender : Address) (escrowId : Nat) (proofHash : B32)
    (s : Storage) : Except Err Storage :=
  let e := s.escrows escrowId
  if e.funded = false then .error .notFound
  else if e.completed = true then .error .alreadyCompleted
  else if sender = e.agent then
    .ok (s.set escrowId { e with proofHash := proofHash, completed := true })
  else .error .onlyAgent

/-- `releasePayment(escrowId)` with `msg.sender = sender` (contract
lines 94-109); the value transfer to the agent is modelled as
succeeding. -/
def releasePayment (sender : Address) (escrowId : Nat)
    (s : Storage) : Except Err Storage :=
  let e := s.escrows escrowId
  if e.funded = false then .error .notFound
  else if e.completed = false then .error .notCompleted
  else if e.released = true then .error .alreadyReleased
  else if e.refunded = true then .error .alreadyRefunded
  else if sender = e.payer then
    .ok (s.set escrowId { e with released := true })
  else .error .onlyPayer

/-- `refund(escrowId)` with `msg.sender = sender` (contract lines
113-128); the value transfer back to the payer is modelled as
succeeding. -/
def refund (sender : Address) (escrowId : Nat)
    (s : Storage) : Except Err Storage :=
  let e := s.escrows escrowId
  if e.funded = false then .error .notFound
  else if e.completed = true then .error .alreadyCompleted
  else if e.released = true then .error .alreadyReleased
  else if e.refunded = true then .error .alreadyRefunded
  else if sender = e.payer then
    .ok (s.set escrowId { e with refunded := true })
  else .error .onlyPayer

/-- `getEscrow(escrowId)` (contract lines 133-135): the raw slot, the
zero struct for an unallocated id. -/
def getEscrow (s : Storage) (escrowId : Nat) : Escrow := s.escrows escrowId

/-- One submitted transaction against the contract, with its caller. -/
inductive Op where
  | create (sender : Address) (value : Nat) (agent : Address) (taskId : B32)
  | submit (sender : Address) (escrowId : Nat) (proofHash : B32)
  | release (sender : Address) (escrowId : Nat)
  | refund (sender : Address) (escrowId : Nat)

/-- Apply one transaction: a reverted call leaves storage unchanged. -/
def applyOp (s : Storage) (op : Op) : Storage :=
  match op with
  | .create sender value agent taskId =>
      match createEscrow sender value agent taskId s with
      | .ok p => p.1
      | .error _ => s
  | .submit sender escrowId proofHash =>
      match submitProof sender escrowId proofHash s with
      | .ok s2 => s2
      | .error _ => s
  | .release sender escrowId =>
      match releasePayment sender escrowId s with
      | .ok s2 => s2
      | .error _ => s
  | .refund sender escrowId =>
      match refund sender escrowId s with
      | .ok s2 => s2
      | .error _ => s

/-- Run a list of transactions from a given storage. -/
def execFrom (s : Storage) (ops : List Op) : Storage := ops.foldl applyOp s

/-- Run a list of transactions against a freshly deployed contract. -/
def execOps (ops : List Op) : Storage := execFrom Storage.init ops

end AgentEscrow

namespace Wap3

open AgentEscrow

/-- One matched log entry of a `queryFilter` call; only the
`transactionHash` field is consumed by the reconciler. -/
structure LogEvent where
  transactionHash : String
deriving Repr, DecidableEq

/-- The fields of an `AP2Intent` the reconciler reads. -/
structure AP2Intent where
  intent_id : String
  ap2_version : String
deriving Repr, DecidableEq

/-- The fields of an `X402Trigger` the reconciler reads. -/
structure X402Trigger where
  x402_version : String
  payment_id : String
deriving Repr, DecidableEq

/-- Chain configuration consumed by the reconciler. -/
structure ChainConfig where
  name : String
  chainId : Nat
deriving Repr, DecidableEq

/-- The `escrow` block of an `AuditRecord`; `amount` keeps the raw
native-token quantity (the decimal rendering by `formatEther` is
display formatting with no bearing on the properties below). -/
structure AuditEscrow where
  escrow_id : Nat
  payer : Address
  agent : Address
  amount : Nat
  status : String
deriving Repr, DecidableEq

/-- The `intent` block of an `AuditRecord`. -/
structure AuditIntent where
  intent_id : String
  ap2_version : String
  hash : String
deriving Repr, DecidableEq

/-- The `trigger` block of an `AuditRecord`. -/
structure AuditTrigger where
  x402_version : String
  payment_id : String
  hash : String
deriving Repr, DecidableEq

/-- The `proof` block of an `AuditRecord`. -/
structure AuditProof where
  proof_hash : B32
  uri : String
deriving Repr, DecidableEq

/-- The `tx` block of an `AuditRecord`: `proof_tx` and `settle_tx` are
nullable. -/
structure AuditTx where
  create_tx : String
  proof_tx : Option String
  settle_tx : Option String
deriving Repr, DecidableEq

/-- The `chain` block of an `AuditRecord`. -/
structure AuditChain where
  name : String
  chain_id : Nat
deriving Repr, DecidableEq

/-- The `AuditRecord` interface of `src/wap3/audit.ts` (lines 13-44). -/
structure AuditRecord where
  intent : AuditIntent
  trigger : AuditTrigger
  escrow : AuditEscrow
  proof : AuditProof
  tx : AuditTx
  chain : AuditChain
deriving Repr, DecidableEq

/-- The status chain of `collectAuditData` (audit.ts lines 62-71). -/
def auditStatus (e : Escrow) : String :=
  if e.refunded then "refunded"
  else if e.released then "settled"
  else if e.completed then "completed"
  else "pending"

/-- The identical status chain of `WAP3Client.getEscrow`
(client, lines 84-93). -/
def clientStatus (e : Escrow) : String :=
  if e.refunded then "refunded"
  else if e.released then "settled"
  else if e.completed then "completed"
  else "pending"

/-- The JavaScript `events[0]?.transactionHash || ""`: the head's hash,
or `""` when there is none (an empty-string hash is falsy and also
yields `""`). -/
def firstTxOrEmpty : List LogEvent → String
  | [] => ""
  | e :: _ => e.transactionHash

/-- The JavaScript `events[0]?.transactionHash || null`: the head's
hash, or `null` when there is none; an empty-string head hash is falsy
and also yields `null`. -/
def firstTxOrNull : List LogEvent → Option String
  | [] => none
  | e :: _ => if e.transactionHash = "" then none else some e.transactionHash

/-- The proof URI of audit.ts lines 89-91: a walrus locator when
`proofHash` differs from `ZeroHash`, `""` otherwise.  The hex rendering
`proofHash.slice(2)` is abstracted to `toString`. -/
def proofUriOf (proofHash : B32) : String :=
  if proofHash ≠ 0 then "walrus://" ++ toString proofHash else ""

/-- The reconciler `collectAuditData` of audit.ts lines 49-125 as a
pure function over its reads: the escrow snapshot returned by
`getEscrow`, and the three event lists returned by the filtered
`queryFilter` calls.  `intentHash` and `triggerHash` stand for the
keccak256 digests of the canonical JSON serialisations of the two
documents (hashing is opaque to every property below).  The TypeScript
function has no failure path of its own, so the embedding is total. -/
def collectAuditData (escrowId : Nat) (escrow : Escrow)
    (createEvents proofEvents settleEvents : List LogEvent)
    (chainConfig : ChainConfig) (intent : AP2Intent) (trigger : X402Trigger)
    (intentHash triggerHash : String) : AuditRecord :=
  { intent := { intent_id := intent.intent_id,
                ap2_version := intent.ap2_version,
                hash := intentHash },
    trigger := { x402_version := trigger.x402_version,
                 payment_id := trigger.payment_id,
                 hash := triggerHash },
    escrow := { escrow_id := escrowId,
                payer := escrow.payer,
                agent := escrow.agent,
                amount := escrow.amount,
                status := auditStatus escrow },
    proof := { proof_hash := escrow.proofHash,
               uri := proofUriOf escrow.proofHash },
    tx := { create_tx := firstTxOrEmpty createEvents,
            proof_tx := firstTxOrNull proofEvents,
            settle_tx := firstTxOrNull settleEvents },
    chain := { name := chainConfig.name,
               chain_id := chainConfig.chainId } }

/-- The `EscrowInfo` returned by `WAP3Client.getEscrow` (amount kept as
the raw quantity, as for `AuditEscrow`). -/
structure EscrowInfo where
  escrowId : Nat
  payer : Address
  agent : Address
  amount : Nat
  status : String
deriving Repr, DecidableEq

/-- `WAP3Client.getEscrow` (client lines 81-102) as a pure function of
the snapshot read from the contract. -/
def clientGetEscrow (escrowId : Nat) (e : Escrow) : EscrowInfo :=
  { escrowId := escrowId, payer := e.payer, agent := e.agent,
    amount := e.amount, status := clientStatus e }

/-- One receipt log as `WAP3Client.createEscrow` inspects it:
`log.fragment?.name` and `event?.args?.escrowId` may each be absent. -/
structure ReceiptLog where
  fragmentName : Option String
  argsEscrowId : Option Nat
deriving Repr, DecidableEq

/-- The escrow-id extraction of `WAP3Client.createEscrow` (client lines
37-42): find the first log whose fragment name is EscrowCreated, then
`event?.args?.escrowId ?? 0n`. -/
def parseCreatedEscrowId (logs : List ReceiptLog) : Nat :=
  match logs.find? (fun l => l.fragmentName = some "EscrowCreated") with
  | none => 0
  | some ev => ev.argsEscrowId.getD 0

end Wap3

namespace AgentEscrow

theorem submitProof_isOk_iff (sender : Address) (i : Nat) (h : B32) (s : Storage) :
    (submitProof sender i h s).isOk = true ↔
      (s.escrows i).funded = true ∧ (s.escrows i).completed = false ∧
      sender = (s.escrows i).agent := by
  unfold submitProof
  cases hf : (s.escrows i).funded <;>
    cases hc : (s.escrows i).completed <;>
      by_cases ha : sender = (s.escrows i).agent <;>
        simp [hf, hc, ha, Except.isOk, Except.toBool]

theorem releasePayment_isOk_iff (sender : Address) (i : Nat) (s : Storage) :
    (releasePayment sender i s).isOk = true ↔
      (s.escrows i).funded = true ∧ (s.escrows i).completed = true ∧
      (s.escrows i).released = false ∧ (s.escrows i).refunded = false ∧
      sender = (s.escrows i).payer := by
  unfold releasePayment
  cases hf : (s.escrows i).funded <;>
    cases hc : (s.escrows i).completed <;>
      cases hr : (s.escrows i).released <;>
        cases hd : (s.escrows i).refunded <;>
          by_cases hp : sender = (s.escrows i).payer <;>
            simp [hf, hc, hr, hd, hp, Except.isOk, Except.toBool]

theorem refund_isOk_iff (sender : Address) (i : Nat) (s : Storage) :
    (refund sender i s).isOk = true ↔
      (s.escrows i).funded = true ∧ (s.escrows i).completed = false ∧
      (s.escrows i).released = false ∧ (s.escrows i).refunded = false ∧
      sender = (s.escrows i).payer := by
  unfold refund
  cases hf : (s.escrows i).funded <;>
    cases hc : (s.escrows i).completed <;>
      cases hr : (s.escrows i).released <;>
        cases hd : (s.escrows i).refunded <;>
          by_cases hp : sender = (s.escrows i).payer <;>
            simp [hf, hc, hr, hd, hp, Except.isOk, Except.toBool]

end AgentEscrow

namespace AgentEscrow

theorem createEscrow_ok (sender : Address) (value : Nat) (agent : Address)
    (taskId : B32) (s : Storage) (p : Storage × Nat)
    (heq : createEscrow sender value agent taskId s = .ok p) :
    agent ≠ 0 ∧ value ≠ 0 ∧
    p = (⟨s.nextEscrowId + 1,
          fun j => if j = s.nextEscrowId then
              { s.escrows s.nextEscrowId with
                payer := sender, agent := agent, amount := value,
                taskId := taskId, funded := true }
            else s.escrows j⟩, s.nextEscrowId) := by
  unfold createEscrow at heq
  by_cases ha : agent = 0 <;> by_cases hv : value = 0 <;>
    simp [ha, hv] at heq <;> simp [ha, hv, heq.symm]

theorem submitProof_ok (sender : Address) (i : Nat) (h : B32) (s : Storage)
    (s2 : Storage) (heq : submitProof sender i h s = .ok s2) :
    (s.escrows i).funded = true ∧ (s.escrows i).completed = false ∧
    sender = (s.escrows i).agent ∧
    s2 = s.set i { s.escrows i with proofHash := h, completed := true } := by
  unfold submitProof at heq
  cases hf : (s.escrows i).funded <;>
    cases hc : (s.escrows i).completed <;>
      by_cases ha : sender = (s.escrows i).agent <;>
        simp [hf, hc, ha] at heq <;> simp [ha, hf, hc, heq.symm]

theorem releasePayment_ok (sender : Address) (i : Nat) (s : Storage)
    (s2 : Storage) (heq : releasePayment sender i s = .ok s2) :
    (s.escrows i).funded = true ∧ (s.escrows i).completed = true ∧
    (s.escrows i).released = false ∧ (s.escrows i).refunded = false ∧
    sender = (s.escrows i).payer ∧
    s2 = s.set i { s.escrows i with released := true } := by
  unfold releasePayment at heq
  cases hf : (s.escrows i).funded <;>
    cases hc : (s.escrows i).completed <;>
      cases hr : (s.escrows i).released <;>
        cases hd : (s.escrows i).refunded <;>
          by_cases hp : sender = (s.escrows i).payer <;>
            simp [hf, hc, hr, hd, hp] at heq <;> simp [hp, hf, hc, hr, hd, heq.symm]

theorem refund_ok (sender : Address) (i : Nat) (s : Storage)
    (s2 : Storage) (heq : refund sender i s = .ok s2) :
    (s.escrows i).funded = true ∧ (s.escrows i).completed = false ∧
    (s.escrows i).released = false ∧ (s.escrows i).refunded = false ∧
    sender = (s.escrows i).payer ∧
    s2 = s.set i { s.escrows i with refunded := true } := by
  unfold refund at heq
  cases hf : (s.escrows i).funded <;>
    cases hc : (s.escrows i).completed <;>
      cases hr : (s.escrows i).released <;>
        cases hd : (s.escrows i).refunded <;>
          by_cases hp : sender = (s.escrows i).payer <;>
            simp [hf, hc, hr, hd, hp] at heq <;> simp [hp, hf, hc, hr, hd, heq.symm]

end AgentEscrow

namespace AgentEscrow

theorem applyOp_funded_mono (s : Storage) (op : Op) (i : Nat)
    (h : (s.escrows i).funded = true) :
    ((applyOp s op).escrows i).funded = true := by
  cases op with
  | create sender value agent taskId =>
      cases heq : createEscrow sender value agent taskId s with
      | error e => simpa [applyOp, heq] using h
      | ok p =>
          obtain ⟨-, -, hp⟩ := createEscrow_ok _ _ _ _ _ _ heq
          subst hp
          simp only [applyOp, heq]
          by_cases hi : i = s.nextEscrowId <;> simp [hi, h]
  | submit sender j ph =>
      cases heq : submitProof sender j ph s with
      | error e => simpa [applyOp, heq] using h
      | ok s2 =>
          obtain ⟨hf, hc, ha, hs⟩ := submitProof_ok _ _ _ _ _ heq
          subst hs
          simp only [applyOp, heq]
          by_cases hi : i = j <;> simp [Storage.set, hi, h, hf]
  | release sender j =>
      cases heq : releasePayment sender j s with
      | error e => simpa [applyOp, heq] using h
      | ok s2 =>
          obtain ⟨hf, hc, hr, hd, hp, hs⟩ := releasePayment_ok _ _ _ _ heq
          subst hs
          simp only [applyOp, heq]
          by_cases hi : i = j <;> simp [Storage.set, hi, h, hf]
  | refund sender j =>
      cases heq : refund sender j s with
      | error e => simpa [applyOp, heq] using h
      | ok s2 =>
          obtain ⟨hf, hc, hr, hd, hp, hs⟩ := refund_ok _ _ _ _ heq
          subst hs
          simp only [applyOp, heq]
          by_cases hi : i = j <;> simp [Storage.set, hi, h, hf]

theorem applyOp_completed_frozen (s : Storage) (op : Op) (i : Nat)
    (h : (s.escrows i).completed = true) :
    ((applyOp s op).escrows i).completed = true ∧
    ((applyOp s op).escrows i).proofHash = (s.escrows i).proofHash := by
  cases op with
  | create sender value agent taskId =>
      cases heq : createEscrow sender value agent taskId s with
      | error e => simp [applyOp, heq, h]
      | ok p =>
          obtain ⟨-, -, hp⟩ := createEscrow_ok _ _ _ _ _ _ heq
          subst hp
          simp only [applyOp, heq]
          by_cases hi : i = s.nextEscrowId
          · subst hi; simp [h]
          · simp [hi, h]
  | submit sender j ph =>
      cases heq : submitProof sender j ph s with
      | error e => simp [applyOp, heq, h]
      | ok s2 =>
          obtain ⟨hf, hc, ha, hs⟩ := submitProof_ok _ _ _ _ _ heq
          subst hs
          simp only [applyOp, heq]
          by_cases hi : i = j
          · rw [hi] at h; rw [h] at hc; exact absurd hc (by simp)
          · simp [Storage.set, hi, h]
  | release sender j =>
      cases heq : releasePayment sender j s with
      | error e => simp [applyOp, heq, h]
      | ok s2 =>
          obtain ⟨hf, hc, hr, hd, hp, hs⟩ := releasePayment_ok _ _ _ _ heq
          subst hs
          simp only [applyOp, heq]
          by_cases hi : i = j <;> simp [Storage.set, hi, h, hc]
  | refund sender j =>
      cases heq : refund sender j s with
      | error e => simp [applyOp, heq, h]
      | ok s2 =>
          obtain ⟨hf, hc, hr, hd, hp, hs⟩ := refund_ok _ _ _ _ heq
          subst hs
          simp only [applyOp, heq]
          by_cases hi : i = j
          · rw [hi] at h; rw [h] at hc; exact absurd hc (by simp)
          · simp [Storage.set, hi, h]

end AgentEscrow

namespace AgentEscrow

/-- Whether one transaction is a `submitProof` on escrow `i` that
succeeds in storage `s`. -/
def opSubmitOk (s : Storage) (op : Op) (i : Nat) : Bool :=
  match op with
  | .submit sender j ph => j = i && (submitProof sender j ph s).isOk
  | _ => false

/-- Whether, replaying `ops` from `s`, some `submitProof` on escrow `i`
succeeds. -/
def submitSucceededFrom (s : Storage) : List Op → Nat → Bool
  | [], _ => false
  | op :: rest, i => opSubmitOk s op i || submitSucceededFrom (applyOp s op) rest i

theorem execFrom_cons (s : Storage) (op : Op) (rest : List Op) :
    execFrom s (op :: rest) = execFrom (applyOp s op) rest := rfl

theorem applyOp_completed_origin (s : Storage) (op : Op) (i : Nat)
    (h : ((applyOp s op).escrows i).completed = true) :
    (s.escrows i).completed = true ∨ opSubmitOk s op i = true := by
  cases op with
  | create sender value agent taskId =>
      left
      cases heq : createEscrow sender value agent taskId s with
      | error e => simpa [applyOp, heq] using h
      | ok p =>
          obtain ⟨-, -, hp⟩ := createEscrow_ok _ _ _ _ _ _ heq
          subst hp
          simp only [applyOp, heq] at h
          by_cases hi : i = s.nextEscrowId
          · subst hi; simpa using h
          · simpa [hi] using h
  | submit sender j ph =>
      cases heq : submitProof sender j ph s with
      | error e => left; simpa [applyOp, heq] using h
      | ok s2 =>
          by_cases hi : j = i
          · right
            subst hi
            simp [opSubmitOk, heq, Except.isOk, Except.toBool]
          · left
            obtain ⟨hf, hc, ha, hs⟩ := submitProof_ok _ _ _ _ _ heq
            subst hs
            simp only [applyOp, heq] at h
            have hi2 : i ≠ j := fun hx => hi hx.symm
            simpa [Storage.set, hi2] using h
  | release sender j =>
      left
      cases heq : releasePayment sender j s with
      | error e => simpa [applyOp, heq] using h
      | ok s2 =>
          obtain ⟨hf, hc, hr, hd, hp, hs⟩ := releasePayment_ok _ _ _ _ heq
          subst hs
          simp only [applyOp, heq] at h
          by_cases hi : i = j
          · subst hi; simpa [Storage.set] using hc
          · simpa [Storage.set, hi] using h
  | refund sender j =>
      left
      cases heq : refund sender j s with
      | error e => simpa [applyOp, heq] using h
      | ok s2 =>
          obtain ⟨hf, hc, hr, hd, hp, hs⟩ := refund_ok _ _ _ _ heq
          subst hs
          simp only [applyOp, heq] at h
          by_cases hi : i = j
          · subst hi; simpa [Storage.set] using h
          · simpa [Storage.set, hi] using h

theorem execFrom_funded_mono (ops : List Op) (s : Storage) (i : Nat)
    (h : (s.escrows i).funded = true) :
    ((execFrom s ops).escrows i).funded = true := by
  induction ops generalizing s with
  | nil => exact h
  | cons op rest ih =>
      rw [execFrom_cons]
      exact ih (applyOp s op) (applyOp_funded_mono s op i h)

theorem execFrom_completed_frozen (ops : List Op) (s : Storage) (i : Nat)
    (h : (s.escrows i).completed = true) :
    ((execFrom s ops).escrows i).completed = true ∧
    ((execFrom s ops).escrows i).proofHash = (s.escrows i).proofHash := by
  induction ops generalizing s with
  | nil => exact ⟨h, rfl⟩
  | cons op rest ih =>
      rw [execFrom_cons]
      obtain ⟨h1, h2⟩ := applyOp_completed_frozen s op i h
      obtain ⟨h3, h4⟩ := ih (applyOp s op) h1
      exact ⟨h3, h4.trans h2⟩

theorem execFrom_completed_origin (ops : List Op) (s : Storage) (i : Nat)
    (h : ((execFrom s ops).escrows i).completed = true) :
    (s.escrows i).completed = true ∨ submitSucceededFrom s ops i = true := by
  induction ops generalizing s with
  | nil => exact Or.inl h
  | cons op rest ih =>
      rw [execFrom_cons] at h
      rcases ih (applyOp s op) h with h1 | h1
      · rcases applyOp_completed_origin s op i h1 with h2 | h2
        · exact Or.inl h2
        · right; simp [submitSucceededFrom, h2]
      · right; simp [submitSucceededFrom, h1]

end AgentEscrow

namespace AgentEscrow

/-- The per-record flag invariant every reachable escrow satisfies. -/
def EscrowInv (e : Escrow) : Prop :=
  (e.completed = true → e.funded = true) ∧
  (e.released = true → e.funded = true) ∧
  (e.refunded = true → e.funded = true) ∧
  (e.released = true → e.refunded = false) ∧
  (e.released = true → e.completed = true)

/-- Storage-wide invariant: every slot satisfies `EscrowInv`. -/
def Inv (s : Storage) : Prop := ∀ i, EscrowInv (s.escrows i)

theorem inv_init : Inv Storage.init := by
  intro i
  simp [Storage.init, Escrow.empty, EscrowInv]

theorem inv_applyOp (s : Storage) (op : Op) (h : Inv s) : Inv (applyOp s op) := by
  cases op with
  | create sender value agent taskId =>
      cases heq : createEscrow sender value agent taskId s with
      | error e => simpa [applyOp, heq] using h
      | ok p =>
          obtain ⟨-, -, hp⟩ := createEscrow_ok _ _ _ _ _ _ heq
          subst hp
          intro i
          simp only [applyOp, heq]
          by_cases hi : i = s.nextEscrowId
          · subst hi
            obtain ⟨h1, h2, h3, h4, h5⟩ := h s.nextEscrowId
            refine ⟨?_, ?_, ?_, ?_, ?_⟩ <;> intro hx <;> simp_all
          · simpa [hi] using h i
  | submit sender j ph =>
      cases heq : submitProof sender j ph s with
      | error e => simpa [applyOp, heq] using h
      | ok s2 =>
          obtain ⟨hf, hc, ha, hs⟩ := submitProof_ok _ _ _ _ _ heq
          subst hs
          intro i
          simp only [applyOp, heq]
          by_cases hi : i = j
          · subst hi
            obtain ⟨h1, h2, h3, h4, h5⟩ := h i
            refine ⟨?_, ?_, ?_, ?_, ?_⟩ <;> intro hx <;> simp_all [Storage.set]
          · simpa [Storage.set, hi] using h i
  | release sender j =>
      cases heq : releasePayment sender j s with
      | error e => simpa [applyOp, heq] using h
      | ok s2 =>
          obtain ⟨hf, hc, hr, hd, hp, hs⟩ := releasePayment_ok _ _ _ _ heq
          subst hs
          intro i
          simp only [applyOp, heq]
          by_cases hi : i = j
          · subst hi
            obtain ⟨h1, h2, h3, h4, h5⟩ := h i
            refine ⟨?_, ?_, ?_, ?_, ?_⟩ <;> intro hx <;> simp_all [Storage.set]
          · simpa [Storage.set, hi] using h i
  | refund sender j =>
      cases heq : refund sender j s with
      | error e => simpa [applyOp, heq] using h
      | ok s2 =>
          obtain ⟨hf, hc, hr, hd, hp, hs⟩ := refund_ok _ _ _ _ heq
          subst hs
          intro i
          simp only [applyOp, heq]
          by_cases hi : i = j
          · subst hi
            obtain ⟨h1, h2, h3, h4, h5⟩ := h i
            refine ⟨?_, ?_, ?_, ?_, ?_⟩ <;> intro hx <;> simp_all [Storage.set]
          · simpa [Storage.set, hi] using h i

theorem inv_execFrom (ops : List Op) (s : Storage) (h : Inv s) :
    Inv (execFrom s ops) := by
  induction ops generalizing s with
  | nil => exact h
  | cons op rest ih =>
      rw [execFrom_cons]
      exact ih (applyOp s op) (inv_applyOp s op h)

theorem inv_execOps (ops : List Op) : Inv (execOps ops) :=
  inv_execFrom ops Storage.init inv_init

end AgentEscrow

namespace AgentEscrow

theorem refund_alreadyCompleted (caller : Address) (i : Nat) (s : Storage)
    (hf : (s.escrows i).funded = true) (hc : (s.escrows i).completed = true) :
    refund caller i s = .error .alreadyCompleted := by
  unfold refund
  simp [hf, hc]

/-- C1: counterexample to the claim as stated.  After `create` then
`refund`, the escrow has `refunded = true` (a terminal flag), yet a
`submitProof` by the agent still succeeds: `submitProof` checks only
`funded`, `completed` and the caller, never `released`/`refunded`. -/
theorem C1_counterexample :
    ((execOps [Op.create 1 5 2 7, Op.refund 1 0]).escrows 0).refunded = true ∧
    (submitProof 2 0 9 (execOps [Op.create 1 5 2 7, Op.refund 1 0])).isOk = true := by
  constructor <;> rfl

/-- C1 amended: in every reachable storage, at most one of `released`
and `refunded` holds, each only with `funded = true`; once `released`
is true no transition on that escrow succeeds; once `refunded` is true
no `releasePayment` or `refund` succeeds (but `submitProof` is not
foreclosed by `refunded`). -/
theorem C1_amended_terminal_flags (ops : List Op) (i : Nat) :
    (¬(((execOps ops).escrows i).released = true ∧
       ((execOps ops).escrows i).refunded = true)) ∧
    (((execOps ops).escrows i).released = true →
       ((execOps ops).escrows i).funded = true) ∧
    (((execOps ops).escrows i).refunded = true →
       ((execOps ops).escrows i).funded = true) ∧
    (((execOps ops).escrows i).released = true → ∀ sender ph,
       (submitProof sender i ph (execOps ops)).isOk = false ∧
       (releasePayment sender i (execOps ops)).isOk = false ∧
       (refund sender i (execOps ops)).isOk = false) ∧
    (((execOps ops).escrows i).refunded = true → ∀ sender,
       (releasePayment sender i (execOps ops)).isOk = false ∧
       (refund sender i (execOps ops)).isOk = false) := by
  obtain ⟨h1, h2, h3, h4, h5⟩ := inv_execOps ops i
  refine ⟨?_, h2, h3, ?_, ?_⟩
  · rintro ⟨hrel, href⟩
    rw [h4 hrel] at href
    exact absurd href (by simp)
  · intro hrel sender ph
    have hcomp := h5 hrel
    refine ⟨?_, ?_, ?_⟩
    · rw [Bool.eq_false_iff]
      intro hok
      rw [submitProof_isOk_iff] at hok
      rw [hcomp] at hok
      exact absurd hok.2.1 (by simp)
    · rw [Bool.eq_false_iff]
      intro hok
      rw [releasePayment_isOk_iff] at hok
      rw [hrel] at hok
      exact absurd hok.2.2.1 (by simp)
    · rw [Bool.eq_false_iff]
      intro hok
      rw [refund_isOk_iff] at hok
      rw [hcomp] at hok
      exact absurd hok.2.1 (by simp)
  · intro href sender
    constructor
    · rw [Bool.eq_false_iff]
      intro hok
      rw [releasePayment_isOk_iff] at hok
      rw [href] at hok
      exact absurd hok.2.2.2.1 (by simp)
    · rw [Bool.eq_false_iff]
      intro hok
      rw [refund_isOk_iff] at hok
      rw [href] at hok
      exact absurd hok.2.2.2.1 (by simp)

/-- C1 amended, witness: a concrete released escrow on which every
further transition fails, and a concrete refunded escrow on which
release and refund fail. -/
theorem C1_amended_terminal_flags_witness :
    ((execOps [Op.create 1 5 2 7, Op.submit 2 0 9, Op.release 1 0]).escrows 0).released = true ∧
    (submitProof 2 0 11 (execOps [Op.create 1 5 2 7, Op.submit 2 0 9, Op.release 1 0])).isOk = false ∧
    (refund 1 0 (execOps [Op.create 1 5 2 7, Op.submit 2 0 9, Op.release 1 0])).isOk = false := by
  have hrel : ((execOps [Op.create 1 5 2 7, Op.submit 2 0 9, Op.release 1 0]).escrows 0).released = true := by
    rfl
  have h := (C1_amended_terminal_flags [Op.create 1 5 2 7, Op.submit 2 0 9, Op.release 1 0] 0).2.2.2.1 hrel
  exact ⟨hrel, (h 2 11).1, (h 1 0).2.2⟩

/-- C2: once a `submitProof` for escrow `i` has succeeded, every later
`refund` on `i` fails with the already-completed error, whatever the
caller and whatever transitions happen in between. -/
theorem C2_submit_forecloses_refund (pre suffix : List Op)
    (sender caller : Address) (i : Nat) (ph : B32)
    (hok : (submitProof sender i ph (execOps pre)).isOk = true) :
    refund caller i (execFrom (applyOp (execOps pre) (Op.submit sender i ph)) suffix)
      = .error .alreadyCompleted := by
  cases heq : submitProof sender i ph (execOps pre) with
  | error e => rw [heq] at hok; exact absurd hok (by simp [Except.isOk, Except.toBool])
  | ok s1 =>
      obtain ⟨hf, hc, ha, hs⟩ := submitProof_ok _ _ _ _ _ heq
      have hstep : applyOp (execOps pre) (Op.submit sender i ph) = s1 := by
        simp [applyOp, heq]
      rw [hstep]
      have hc1 : (s1.escrows i).completed = true := by
        subst hs; simp [Storage.set]
      have hf1 : (s1.escrows i).funded = true := by
        subst hs; simp [Storage.set, hf]
      obtain ⟨hc2, -⟩ := execFrom_completed_frozen suffix s1 i hc1
      have hf2 := execFrom_funded_mono suffix s1 i hf1
      exact refund_alreadyCompleted caller i _ hf2 hc2

/-- C2 witness: create escrow 0, agent 2 submits proof, then the
payer's refund attempt fails with the already-completed error. -/
theorem C2_submit_forecloses_refund_witness :
    (submitProof 2 0 9 (execOps [Op.create 1 5 2 7])).isOk = true ∧
    refund 1 0 (execFrom (applyOp (execOps [Op.create 1 5 2 7]) (Op.submit 2 0 9)) [])
      = .error .alreadyCompleted := by
  have hok : (submitProof 2 0 9 (execOps [Op.create 1 5 2 7])).isOk = true := by rfl
  exact ⟨hok, C2_submit_forecloses_refund [Op.create 1 5 2 7] [] 2 1 0 9 hok⟩

end AgentEscrow

namespace AgentEscrow

/-- Whether some `submitProof` on escrow `i` succeeds during the run of
`ops` on a freshly deployed contract. -/
def submitSucceeded (ops : List Op) (i : Nat) : Bool :=
  submitSucceededFrom Storage.init ops i

/-- C3: `releasePayment` succeeds exactly under the five preconditions
(funded, completed, not released, not refunded, caller is the stored
payer); on a funded, not-yet-completed escrow it fails with the
not-completed error; and in any run from deployment a successful
release implies an earlier successful `submitProof` on that escrow. -/
theorem C3_release_requires_submit (ops : List Op) (sender : Address) (i : Nat) :
    ((releasePayment sender i (execOps ops)).isOk = true ↔
       ((execOps ops).escrows i).funded = true ∧
       ((execOps ops).escrows i).completed = true ∧
       ((execOps ops).escrows i).released = false ∧
       ((execOps ops).escrows i).refunded = false ∧
       sender = ((execOps ops).escrows i).payer) ∧
    (((execOps ops).escrows i).funded = true →
       ((execOps ops).escrows i).completed = false →
       releasePayment sender i (execOps ops) = .error .notCompleted) ∧
    ((releasePayment sender i (execOps ops)).isOk = true →
       submitSucceeded ops i = true) := by
  refine ⟨releasePayment_isOk_iff sender i (execOps ops), ?_, ?_⟩
  · intro hf hc
    unfold releasePayment
    simp [hf, hc]
  · intro hok
    have hc := ((releasePayment_isOk_iff sender i (execOps ops)).mp hok).2.1
    rcases execFrom_completed_origin ops Storage.init i hc with h0 | h0
    · exact absurd h0 (by simp [Storage.init, Escrow.empty])
    · exact h0

/-- C3 witness: after create and proof submission, the payer's release
succeeds and the run indeed contains a successful `submitProof`. -/
theorem C3_release_requires_submit_witness :
    (releasePayment 1 0 (execOps [Op.create 1 5 2 7, Op.submit 2 0 9])).isOk = true ∧
    submitSucceeded [Op.create 1 5 2 7, Op.submit 2 0 9] 0 = true ∧
    releasePayment 1 0 (execOps [Op.create 1 5 2 7])
      = .error .notCompleted := by
  have hok : (releasePayment 1 0 (execOps [Op.create 1 5 2 7, Op.submit 2 0 9])).isOk = true := by
    rfl
  refine ⟨hok,
    (C3_release_requires_submit [Op.create 1 5 2 7, Op.submit 2 0 9] 1 0).2.2 hok,
    (C3_release_requires_submit [Op.create 1 5 2 7] 1 0).2.1 (by rfl) (by rfl)⟩

/-- C4: counterexample to the claim as stated.  `submitProof` never
checks the submitted hash against zero, so the agent can submit
`proofHash = 0` (`ZeroHash`): the escrow ends with `completed = true`
and `proofHash = 0`, contradicting the claimed non-zeroness. -/
theorem C4_counterexample :
    ((execOps [Op.create 1 5 2 7, Op.submit 2 0 0]).escrows 0).completed = true ∧
    ((execOps [Op.create 1 5 2 7, Op.submit 2 0 0]).escrows 0).proofHash = 0 := by
  constructor <;> rfl

/-- C4 amended: once `completed` is true it stays true under every
further transition (so the false-to-true transition happens at most
once), and `proofHash` never changes thereafter; the submitted hash
itself may be zero. -/
theorem C4_amended_proof_immutable (ops suffix : List Op) (i : Nat)
    (hc : ((execOps ops).escrows i).completed = true) :
    ((execFrom (execOps ops) suffix).escrows i).completed = true ∧
    ((execFrom (execOps ops) suffix).escrows i).proofHash
      = ((execOps ops).escrows i).proofHash :=
  execFrom_completed_frozen suffix (execOps ops) i hc

/-- C4 amended, witness: after a proof with hash 9, a refund attempt, a
second submit attempt and a release, `completed` still holds and the
stored hash is still 9. -/
theorem C4_amended_proof_immutable_witness :
    ((execOps [Op.create 1 5 2 7, Op.submit 2 0 9]).escrows 0).completed = true ∧
    ((execFrom (execOps [Op.create 1 5 2 7, Op.submit 2 0 9])
        [Op.refund 1 0, Op.submit 2 0 11, Op.release 1 0]).escrows 0).proofHash
      = ((execOps [Op.create 1 5 2 7, Op.submit 2 0 9]).escrows 0).proofHash := by
  have hc : ((execOps [Op.create 1 5 2 7, Op.submit 2 0 9]).escrows 0).completed = true := by
    rfl
  exact ⟨hc, (C4_amended_proof_immutable [Op.create 1 5 2 7, Op.submit 2 0 9]
    [Op.refund 1 0, Op.submit 2 0 11, Op.release 1 0] 0 hc).2⟩

/-- C5: on a funded, not-yet-completed escrow, the stored agent's first
`submitProof` succeeds and stores the hash; a second `submitProof` on
the resulting storage fails with the already-completed error; the
failed call leaves the storage (hence the stored hash) unchanged. -/
theorem C5_double_submit (s : Storage) (i : Nat) (ph1 ph2 : B32)
    (hf : (s.escrows i).funded = true) (hc : (s.escrows i).completed = false) :
    submitProof (s.escrows i).agent i ph1 s
      = .ok (s.set i { s.escrows i with proofHash := ph1, completed := true }) ∧
    submitProof (s.escrows i).agent i ph2
        (s.set i { s.escrows i with proofHash := ph1, completed := true })
      = .error .alreadyCompleted ∧
    ((s.set i { s.escrows i with proofHash := ph1, completed := true }).escrows i).proofHash = ph1 ∧
    applyOp (s.set i { s.escrows i with proofHash := ph1, completed := true })
        (Op.submit (s.escrows i).agent i ph2)
      = s.set i { s.escrows i with proofHash := ph1, completed := true } := by
  have h1 : submitProof (s.escrows i).agent i ph1 s
      = .ok (s.set i { s.escrows i with proofHash := ph1, completed := true }) := by
    unfold submitProof
    simp [hf, hc]
  have h2 : submitProof (s.escrows i).agent i ph2
      (s.set i { s.escrows i with proofHash := ph1, completed := true })
      = .error .alreadyCompleted := by
    unfold submitProof
    simp [Storage.set, hf]
  refine ⟨h1, h2, by simp [Storage.set], ?_⟩
  simp [applyOp, h2]

/-- C5 witness: on the freshly created escrow 0 (agent 2), submitting
hash 9 then hash 11. -/
theorem C5_double_submit_witness :
    ((execOps [Op.create 1 5 2 7]).escrows 0).funded = true ∧
    ((execOps [Op.create 1 5 2 7]).escrows 0).completed = false ∧
    submitProof ((execOps [Op.create 1 5 2 7]).escrows 0).agent 0 11
        ((execOps [Op.create 1 5 2 7]).set 0
          { (execOps [Op.create 1 5 2 7]).escrows 0 with proofHash := 9, completed := true })
      = .error .alreadyCompleted ∧
    (((execOps [Op.create 1 5 2 7]).set 0
        { (execOps [Op.create 1 5 2 7]).escrows 0 with proofHash := 9, completed := true }).escrows 0).proofHash = 9 := by
  have hf : ((execOps [Op.create 1 5 2 7]).escrows 0).funded = true := by rfl
  have hc : ((execOps [Op.create 1 5 2 7]).escrows 0).completed = false := by rfl
  have h := C5_double_submit (execOps [Op.create 1 5 2 7]) 0 9 11 hf hc
  exact ⟨hf, hc, h.2.1, h.2.2.1⟩

/-- C6: `createEscrow` rejects a zero agent with the invalid-agent
error and a zero value with the no-funds error, in both cases leaving
storage untouched; with valid arguments on a fresh store it succeeds
and allocates escrow id 0. -/
theorem C6_create_validation (s : Storage) (sender : Address) (value : Nat)
    (agent : Address) (taskId : B32) :
    (agent = 0 →
       createEscrow sender value agent taskId s = .error .invalidAgent ∧
       applyOp s (Op.create sender value agent taskId) = s) ∧
    (agent ≠ 0 → value = 0 →
       createEscrow sender value agent taskId s = .error .noFunds ∧
       applyOp s (Op.create sender value agent taskId) = s) ∧
    (agent ≠ 0 → value ≠ 0 →
       createEscrow sender value agent taskId Storage.init
         = .ok (applyOp Storage.init (Op.create sender value agent taskId), 0)) := by
  refine ⟨?_, ?_, ?_⟩
  · intro ha
    have h1 : createEscrow sender value agent taskId s = .error .invalidAgent := by
      unfold createEscrow
      simp [ha]
    exact ⟨h1, by simp [applyOp, h1]⟩
  · intro ha hv
    have h1 : createEscrow sender value agent taskId s = .error .noFunds := by
      unfold createEscrow
      simp [ha, hv]
    exact ⟨h1, by simp [applyOp, h1]⟩
  · intro ha hv
    unfold applyOp createEscrow
    simp [ha, hv, Storage.init]

/-- C6 witness: concrete rejections on a fresh store and the first
successful create receiving id 0. -/
theorem C6_create_validation_witness :
    createEscrow 1 5 0 7 Storage.init = .error .invalidAgent ∧
    createEscrow 1 0 2 7 Storage.init = .error .noFunds ∧
    createEscrow 1 5 2 7 Storage.init
      = .ok (applyOp Storage.init (Op.create 1 5 2 7), 0) := by
  exact ⟨((C6_create_validation Storage.init 1 5 0 7).1 rfl).1,
         ((C6_create_validation Storage.init 1 0 2 7).2.1 (by simp) rfl).1,
         (C6_create_validation Storage.init 1 5 2 7).2.2 (by simp) (by simp)⟩

end AgentEscrow

namespace Wap3

open AgentEscrow

/-- C7: counterexample to the claim as stated.  `collectAuditData` has
no existence check: applied to the zero snapshot an unknown escrow id
yields (`funded = false`), it returns a normal audit record whose
escrow fields are the zero values and whose status is pending, instead
of failing with an EscrowUnknown error (no such error exists in the
code). -/
theorem C7_counterexample :
    collectAuditData 7 Escrow.empty [] [] []
        { name := "testnet", chainId := 1 }
        { intent_id := "intent-1", ap2_version := "0.1" }
        { x402_version := "x402-1", payment_id := "pay-1" }
        "ihash" "thash"
      = { intent := { intent_id := "intent-1", ap2_version := "0.1", hash := "ihash" },
          trigger := { x402_version := "x402-1", payment_id := "pay-1", hash := "thash" },
          escrow := { escrow_id := 7, payer := 0, agent := 0, amount := 0, status := "pending" },
          proof := { proof_hash := 0, uri := "" },
          tx := { create_tx := "", proof_tx := none, settle_tx := none },
          chain := { name := "testnet", chain_id := 1 } } := by
  rfl

/-- C7 amended: for a non-existent escrow (the zero snapshot, with
`funded = false` and no events), the reconciler does not fail: it
returns a record with zero escrow fields, status pending, empty
creation transaction and null proof and settle transactions. -/
theorem C7_amended_no_existence_check (escrowId : Nat)
    (chainConfig : ChainConfig) (intent : AP2Intent) (trigger : X402Trigger)
    (intentHash triggerHash : String) :
    collectAuditData escrowId Escrow.empty [] [] [] chainConfig intent trigger
        intentHash triggerHash
      = { intent := { intent_id := intent.intent_id,
                      ap2_version := intent.ap2_version, hash := intentHash },
          trigger := { x402_version := trigger.x402_version,
                       payment_id := trigger.payment_id, hash := triggerHash },
          escrow := { escrow_id := escrowId, payer := 0, agent := 0,
                      amount := 0, status := "pending" },
          proof := { proof_hash := 0, uri := "" },
          tx := { create_tx := "", proof_tx := none, settle_tx := none },
          chain := { name := chainConfig.name, chain_id := chainConfig.chainId } } := by
  rfl

/-- C8: counterexample to the claim as stated.  With two creation
events for the same escrow id, the reconciler does not fail with a
ConsistencyViolation: it silently emits a record using the first
match's transaction hash. -/
theorem C8_counterexample :
    (collectAuditData 0 Escrow.empty
        [{ transactionHash := "0xaaa" }, { transactionHash := "0xbbb" }] [] []
        { name := "testnet", chainId := 1 }
        { intent_id := "i", ap2_version := "v" }
        { x402_version := "x", payment_id := "p" }
        "ihash" "thash").tx.create_tx = "0xaaa" ∧
    collectAuditData 0 Escrow.empty
        [{ transactionHash := "0xaaa" }, { transactionHash := "0xbbb" }] [] []
        { name := "testnet", chainId := 1 }
        { intent_id := "i", ap2_version := "v" }
        { x402_version := "x", payment_id := "p" }
        "ihash" "thash"
      = collectAuditData 0 Escrow.empty [{ transactionHash := "0xaaa" }] [] []
        { name := "testnet", chainId := 1 }
        { intent_id := "i", ap2_version := "v" }
        { x402_version := "x", payment_id := "p" }
        "ihash" "thash" := by
  constructor <;> rfl

/-- C8 amended: each per-escrow event query is consumed only through
its first entry (index 0); extra matching events beyond the first are
silently ignored and never raise an error — the record for
`e :: rest` event lists equals the record for the singleton lists. -/
theorem C8_amended_first_match (escrowId : Nat) (escrow : Escrow)
    (c1 p1 t1 : LogEvent) (cs ps ts : List LogEvent)
    (chainConfig : ChainConfig) (intent : AP2Intent) (trigger : X402Trigger)
    (intentHash triggerHash : String) :
    collectAuditData escrowId escrow (c1 :: cs) (p1 :: ps) (t1 :: ts)
        chainConfig intent trigger intentHash triggerHash
      = collectAuditData escrowId escrow [c1] [p1] [t1]
        chainConfig intent trigger intentHash triggerHash := by
  rfl

/-- C9: the status label of the audit record and of the client's
getEscrow is derived from the flags with precedence refunded over
released over completed over pending, the released case rendered as
settled, and the label always lies in the four-element set. -/
theorem C9_status_precedence (escrowId : Nat) (e : Escrow)
    (createEvents proofEvents settleEvents : List LogEvent)
    (chainConfig : ChainConfig) (intent : AP2Intent) (trigger : X402Trigger)
    (intentHash triggerHash : String) :
    (collectAuditData escrowId e createEvents proofEvents settleEvents
        chainConfig intent trigger intentHash triggerHash).escrow.status
      = auditStatus e ∧
    (clientGetEscrow escrowId e).status = auditStatus e ∧
    clientStatus e = auditStatus e ∧
    (e.refunded = true → auditStatus e = "refunded") ∧
    (e.refunded = false → e.released = true → auditStatus e = "settled") ∧
    (e.refunded = false → e.released = false → e.completed = true →
       auditStatus e = "completed") ∧
    (e.refunded = false → e.released = false → e.completed = false →
       auditStatus e = "pending") ∧
    (auditStatus e = "pending" ∨ auditStatus e = "completed" ∨
     auditStatus e = "settled" ∨ auditStatus e = "refunded") := by
  refine ⟨rfl, rfl, rfl, ?_, ?_, ?_, ?_, ?_⟩
  · intro hd
    simp [auditStatus, hd]
  · intro hd hr
    simp [auditStatus, hd, hr]
  · intro hd hr hc
    simp [auditStatus, hd, hr, hc]
  · intro hd hr hc
    simp [auditStatus, hd, hr, hc]
  · cases hd : e.refunded <;> cases hr : e.released <;> cases hc : e.completed <;>
      simp [auditStatus, hd, hr, hc]

/-- C9 witness: the settled case, on the snapshot of a released
escrow. -/
theorem C9_status_precedence_witness :
    auditStatus ((execOps [Op.create 1 5 2 7, Op.submit 2 0 9, Op.release 1 0]).escrows 0)
      = "settled" ∧
    (clientGetEscrow 0 ((execOps [Op.create 1 5 2 7, Op.submit 2 0 9, Op.release 1 0]).escrows 0)).status
      = "settled" := by
  have e := (execOps [Op.create 1 5 2 7, Op.submit 2 0 9, Op.release 1 0]).escrows 0
  have h := C9_status_precedence 0
    ((execOps [Op.create 1 5 2 7, Op.submit 2 0 9, Op.release 1 0]).escrows 0)
    [] [] [] { name := "t", chainId := 1 }
    { intent_id := "i", ap2_version := "v" }
    { x402_version := "x", payment_id := "p" } "ih" "th"
  refine ⟨h.2.2.2.2.1 (by rfl) (by rfl), ?_⟩
  rw [h.2.1]
  exact h.2.2.2.2.1 (by rfl) (by rfl)

/-- C10: when a mined receipt contains no log parseable as an
EscrowCreated event, the client's escrow-id extraction does not fail:
it yields 0, the same value a genuine receipt for escrow id 0 yields,
so the two are indistinguishable to the caller. -/
theorem C10_missing_event_defaults_to_zero (logs : List ReceiptLog)
    (h : ∀ l ∈ logs, l.fragmentName ≠ some "EscrowCreated") :
    parseCreatedEscrowId logs = 0 ∧
    parseCreatedEscrowId logs
      = parseCreatedEscrowId
          [{ fragmentName := some "EscrowCreated", argsEscrowId := some 0 }] := by
  have hn : logs.find? (fun l => l.fragmentName = some "EscrowCreated") = none := by
    rw [List.find?_eq_none]
    intro x hx
    simp [h x hx]
  constructor
  · simp [parseCreatedEscrowId, hn]
  · simp [parseCreatedEscrowId, hn]

/-- C10 witness: a receipt whose only log is a different event parses
to escrow id 0. -/
theorem C10_missing_event_defaults_to_zero_witness :
    parseCreatedEscrowId
        [{ fragmentName := some "ProofSubmitted", argsEscrowId := some 5 }] = 0 := by
  exact (C10_missing_event_defaults_to_zero
    [{ fragmentName := some "ProofSubmitted", argsEscrowId := some 5 }]
    (by decide)).1

end Wap3
